import Mathlib

/-
Shallow embedding of `src/aionextpay/nextpay.py` (the NextPay gateway client).

Modelling choices:
* Form-field values are modelled by their form-encoded strings, so a request
  body is a `List (String × String)` in insertion order, exactly the order of
  the `FormData.add_field` calls in the source.
* A gateway JSON reply is modelled by the fields the client reads (`code`,
  `trans_id`) plus an `extra` list standing for every other field of the body.
* Each async method becomes a function that also takes the gateway reply as a
  parameter and returns the client state after the call, the list of HTTP
  POSTs it issued, and its result (`Except` = returned value / raised
  exception).
-/

/-- Client state: the three values stored by `NextPay.__init__`
(`self.token, self.amount, self.callback_uri = token, amount, callback_uri`).
`amount` (`Union[str, int]` in the source) is modelled by its form-encoded
string. -/
structure NextPay where
  token : String
  amount : String
  callback_uri : String
  deriving DecidableEq

/-- A gateway JSON reply: the integer `code` read by every operation, the
`trans_id` field read by `purchase` on success, and whatever other fields the
body carries. -/
structure GatewayResponse where
  code : Int
  trans_id : String
  extra : List (String × String)
  deriving DecidableEq

/-- One HTTP POST issued by the client: endpoint URL, headers and form body. -/
structure HttpRequest where
  url : String
  headers : List (String × String)
  body : List (String × String)
  deriving DecidableEq

/-- Modelled from the spec: the exception classes of the `exceptions` module
(not under `src/`), one constructor per class raised by `nextpay.py`, each
carrying its message string (§7 error taxonomy). -/
inductive NextPayError where
  | InvalidKey (msg : String)
  | InvalidCallbackUri (msg : String)
  | InvalidToken (msg : String)
  | UnknownHandled (msg : String)
  | PurchaseDeclined (msg : String)
  | PurchaseCanceled (msg : String)
  | InvalidPrice (msg : String)
  | PurchaseAlreadyMade (msg : String)
  | InvalidTransId (msg : String)
  | RefundFailed (msg : String)
  | NotEnoughBalance (msg : String)
  deriving DecidableEq

/-- The fixed class attribute `NextPay.headers`. -/
def requestHeaders : List (String × String) :=
  [("User-Agent", "PostmanRuntime/7.26.8"),
   ("Content-Type", "application/x-www-form-urlencoded")]

/-- Endpoint of `purchase`. -/
def purchaseUrl : String := "https://nextpay.org/nx/gateway/token"

/-- Endpoint of `verify` (also used by `refund`). -/
def verifyUrl : String := "https://nextpay.org/nx/gateway/verify"

/-- The kwargs keys accepted by `purchase`. -/
def validKeys : List String :=
  ["currency", "phone", "custom_json_fields", "payer_name", "payer_desc",
   "auto_verify", "allowed_card"]

/-- The token-error codes of `purchase` (`[-33, -35, -38, -39, -40, -47]`). -/
def tokenErrorCodes : List Int := [-33, -35, -38, -39, -40, -47]

/-- The `for key, value in kwargs.items()` loop of `purchase`: each key in
`validKeys` is added as a form field, any other key raises
`InvalidKey(f"key {key} is invalid for NextPay.org")` at once. -/
def addKwargs : List (String × String) → Except NextPayError (List (String × String))
  | [] => Except.ok []
  | (k, v) :: rest =>
    if k ∈ validKeys then
      match addKwargs rest with
      | Except.ok fs => Except.ok ((k, v) :: fs)
      | Except.error e => Except.error e
    else
      Except.error (NextPayError.InvalidKey ("key " ++ k ++ " is invalid for NextPay.org"))

/-- Form body built by `purchase` before the POST: `api_key`, `amount`,
`order_id`, then the accepted kwargs, then `callback_uri`; or the `InvalidKey`
exception raised inside the loop. -/
def purchase_buildData (np : NextPay) (order_id : String)
    (kwargs : List (String × String)) : Except NextPayError (List (String × String)) :=
  match addKwargs kwargs with
  | Except.error e => Except.error e
  | Except.ok fs =>
    Except.ok ([("api_key", np.token), ("amount", np.amount), ("order_id", order_id)]
      ++ fs ++ [("callback_uri", np.callback_uri)])

/-- Dispatch on `result['code']` in `purchase`. -/
def purchase_classify (np : NextPay) (result : GatewayResponse) :
    Except NextPayError String :=
  if result.code = -1 then
    Except.ok result.trans_id
  else if result.code = -32 then
    Except.error (NextPayError.InvalidCallbackUri "callback_uri is invalid")
  else if result.code = -73 then
    Except.error (NextPayError.InvalidCallbackUri
      "callback_uri has a server error or its too long")
  else if result.code ∈ tokenErrorCodes then
    Except.error (NextPayError.InvalidToken
      ("Token " ++ np.token ++ " is invalid. error code : " ++ toString result.code))
  else
    Except.error (NextPayError.UnknownHandled
      ("Un-handled error code : " ++ toString result.code))

/-- The whole `purchase` call, with the gateway reply as a parameter.
Components: client state afterwards, HTTP POSTs issued, returned value or
raised exception. An invalid kwargs key raises before any POST. -/
def purchase (np : NextPay) (order_id : String) (kwargs : List (String × String))
    (result : GatewayResponse) :
    NextPay × List HttpRequest × Except NextPayError String :=
  match purchase_buildData np order_id kwargs with
  | Except.error e => (np, [], Except.error e)
  | Except.ok data =>
    (np, [⟨purchaseUrl, requestHeaders, data⟩], purchase_classify np result)

/-- Form body built by `verify`: `api_key`, `amount`, `trans_id`, and
`currency` only when the supplied value is `in ['IRT', 'IRR']`
(`None`, the default, never is). -/
def verify_buildData (np : NextPay) (trans_id : String) (currency : Option String) :
    List (String × String) :=
  let base := [("api_key", np.token), ("amount", np.amount), ("trans_id", trans_id)]
  match currency with
  | none => base
  | some c => if c ∈ (["IRT", "IRR"] : List String) then base ++ [("currency", c)] else base

/-- Dispatch on `result['code']` in `verify`. -/
def verify_classify (result : GatewayResponse) : Except NextPayError Bool :=
  if result.code = 0 then
    Except.ok true
  else if result.code = -2 then
    Except.error (NextPayError.PurchaseDeclined "Purchase declined by user or bank")
  else if result.code = -4 then
    Except.error (NextPayError.PurchaseCanceled "Purchase canceled")
  else if result.code = -24 then
    Except.error (NextPayError.InvalidPrice "Entered price is invalid")
  else if result.code = -25 then
    Except.error (NextPayError.PurchaseAlreadyMade "Purchase is already finished and paid")
  else if result.code = -27 then
    Except.error (NextPayError.InvalidTransId "trans_id is invalid")
  else
    Except.error (NextPayError.UnknownHandled
      ("Un-handled error code : " ++ toString result.code))

/-- The whole `verify` call, with the gateway reply as a parameter. -/
def verify (np : NextPay) (trans_id : String) (currency : Option String)
    (result : GatewayResponse) :
    NextPay × List HttpRequest × Except NextPayError Bool :=
  (np, [⟨verifyUrl, requestHeaders, verify_buildData np trans_id currency⟩],
    verify_classify result)

/-- Form body built by `refund`: `api_key`, `amount`, `trans_id`,
`refund_request=yes_money_back`. -/
def refund_buildData (np : NextPay) (trans_id : String) : List (String × String) :=
  [("api_key", np.token), ("amount", np.amount), ("trans_id", trans_id),
   ("refund_request", "yes_money_back")]

/-- Dispatch on `result['code']` in `refund`. -/
def refund_classify (result : GatewayResponse) : Except NextPayError Bool :=
  if result.code = -90 then
    Except.ok true
  else if result.code ∈ ([-91, -92] : List Int) then
    Except.error (NextPayError.RefundFailed "Refund failed")
  else if result.code = -93 then
    Except.error (NextPayError.NotEnoughBalance "Not enough balance to refund")
  else if result.code = -27 then
    Except.error (NextPayError.InvalidTransId "trans_id is invalid")
  else
    Except.error (NextPayError.UnknownHandled
      ("Un-handled error code : " ++ toString result.code))

/-- The whole `refund` call, with the gateway reply as a parameter. -/
def refund (np : NextPay) (trans_id : String) (result : GatewayResponse) :
    NextPay × List HttpRequest × Except NextPayError Bool :=
  (np, [⟨verifyUrl, requestHeaders, refund_buildData np trans_id⟩],
    refund_classify result)

/-- Every code `purchase` handles by name. -/
def purchaseKnownCodes : List Int := [-1, -32, -73, -33, -35, -38, -39, -40, -47]

/-- Every code `verify` handles by name. -/
def verifyKnownCodes : List Int := [0, -2, -4, -24, -25, -27]

/-- Every code `refund` handles by name. -/
def refundKnownCodes : List Int := [-90, -91, -92, -93, -27]

/-- C1: `purchase` maps gateway codes per the table: code `-1` returns the
reply's `trans_id`; `-32` and `-73` raise `InvalidCallbackUri`; each code in
`tokenErrorCodes` raises `InvalidToken` with a message containing the client's
token and the code; any other code raises `UnknownHandled` with a message
containing the raw code. -/
theorem purchase_code_table (np : NextPay) (r : GatewayResponse) :
    (r.code = -1 → purchase_classify np r = Except.ok r.trans_id) ∧
    (r.code = -32 ∨ r.code = -73 →
      ∃ m, purchase_classify np r = Except.error (NextPayError.InvalidCallbackUri m)) ∧
    (r.code ∈ tokenErrorCodes →
      ∃ m a b c d,
        purchase_classify np r = Except.error (NextPayError.InvalidToken m) ∧
        m = a ++ np.token ++ b ∧ m = c ++ toString r.code ++ d) ∧
    (r.code ∉ purchaseKnownCodes →
      ∃ m a b,
        purchase_classify np r = Except.error (NextPayError.UnknownHandled m) ∧
        m = a ++ toString r.code ++ b) := by
  refine ⟨?_, ?_, ?_, ?_⟩
  · intro h
    simp [purchase_classify, h]
  · rintro (h | h)
    · exact ⟨"callback_uri is invalid", by simp [purchase_classify, h]⟩
    · exact ⟨"callback_uri has a server error or its too long",
        by simp [purchase_classify, h]⟩
  · intro h
    have hmem := h
    simp only [tokenErrorCodes, List.mem_cons, List.not_mem_nil, or_false] at hmem
    refine ⟨"Token " ++ np.token ++ " is invalid. error code : " ++ toString r.code,
      "Token ", " is invalid. error code : " ++ toString r.code,
      "Token " ++ np.token ++ " is invalid. error code : ", "", ?_, ?_, ?_⟩
    · rcases hmem with h1 | h1 | h1 | h1 | h1 | h1 <;>
        simp [purchase_classify, h1, tokenErrorCodes]
    · rw [String.append_assoc]
    · rw [String.append_empty]
  · intro h
    simp only [purchaseKnownCodes, List.mem_cons, List.not_mem_nil, or_false] at h
    push_neg at h
    obtain ⟨h1, h2, h3, h4, h5, h6, h7, h8, h9⟩ := h
    refine ⟨"Un-handled error code : " ++ toString r.code,
      "Un-handled error code : ", "", ?_, ?_⟩
    · simp [purchase_classify, tokenErrorCodes, h1, h2, h3, h4, h5, h6, h7, h8, h9]
    · rw [String.append_empty]

/-- Witness for C1: code `-1` with `trans_id` `abc123` returns `abc123`. -/
theorem purchase_code_table_witness :
    purchase_classify ⟨"tok", "1000", "cb"⟩ ⟨-1, "abc123", []⟩ = Except.ok "abc123" :=
  (purchase_code_table ⟨"tok", "1000", "cb"⟩ ⟨-1, "abc123", []⟩).1 rfl

/-- C3: `verify` maps gateway codes per the table: `0` returns `true`, `-2`
raises `PurchaseDeclined`, `-4` `PurchaseCanceled`, `-24` `InvalidPrice`,
`-25` `PurchaseAlreadyMade`, `-27` `InvalidTransId`, and any other code the
unhandled error. -/
theorem verify_code_table (r : GatewayResponse) :
    (r.code = 0 → verify_classify r = Except.ok true) ∧
    (r.code = -2 → ∃ m, verify_classify r = Except.error (NextPayError.PurchaseDeclined m)) ∧
    (r.code = -4 → ∃ m, verify_classify r = Except.error (NextPayError.PurchaseCanceled m)) ∧
    (r.code = -24 → ∃ m, verify_classify r = Except.error (NextPayError.InvalidPrice m)) ∧
    (r.code = -25 →
      ∃ m, verify_classify r = Except.error (NextPayError.PurchaseAlreadyMade m)) ∧
    (r.code = -27 → ∃ m, verify_classify r = Except.error (NextPayError.InvalidTransId m)) ∧
    (r.code ∉ verifyKnownCodes →
      ∃ m, verify_classify r = Except.error (NextPayError.UnknownHandled m)) := by
  refine ⟨fun h => by simp [verify_classify, h], ?_, ?_, ?_, ?_, ?_, ?_⟩
  · exact fun h => ⟨"Purchase declined by user or bank", by simp [verify_classify, h]⟩
  · exact fun h => ⟨"Purchase canceled", by simp [verify_classify, h]⟩
  · exact fun h => ⟨"Entered price is invalid", by simp [verify_classify, h]⟩
  · exact fun h => ⟨"Purchase is already finished and paid", by simp [verify_classify, h]⟩
  · exact fun h => ⟨"trans_id is invalid", by simp [verify_classify, h]⟩
  · intro h
    simp only [verifyKnownCodes, List.mem_cons, List.not_mem_nil, or_false] at h
    push_neg at h
    obtain ⟨h1, h2, h3, h4, h5, h6⟩ := h
    exact ⟨"Un-handled error code : " ++ toString r.code,
      by simp [verify_classify, h1, h2, h3, h4, h5, h6]⟩

/-- Witness for C3: code `0` returns `true`. -/
theorem verify_code_table_witness : verify_classify ⟨0, "", []⟩ = Except.ok true :=
  (verify_code_table ⟨0, "", []⟩).1 rfl

/-- C4: `refund` maps gateway codes per the table: `-90` returns `true`,
`-91` and `-92` raise `RefundFailed`, `-93` `NotEnoughBalance`, `-27`
`InvalidTransId`, and any other code the unhandled error. -/
theorem refund_code_table (r : GatewayResponse) :
    (r.code = -90 → refund_classify r = Except.ok true) ∧
    (r.code = -91 ∨ r.code = -92 →
      ∃ m, refund_classify r = Except.error (NextPayError.RefundFailed m)) ∧
    (r.code = -93 → ∃ m, refund_classify r = Except.error (NextPayError.NotEnoughBalance m)) ∧
    (r.code = -27 → ∃ m, refund_classify r = Except.error (NextPayError.InvalidTransId m)) ∧
    (r.code ∉ refundKnownCodes →
      ∃ m, refund_classify r = Except.error (NextPayError.UnknownHandled m)) := by
  refine ⟨fun h => by simp [refund_classify, h], ?_, ?_, ?_, ?_⟩
  · rintro (h | h) <;> exact ⟨"Refund failed", by simp [refund_classify, h]⟩
  · exact fun h => ⟨"Not enough balance to refund", by simp [refund_classify, h]⟩
  · exact fun h => ⟨"trans_id is invalid", by simp [refund_classify, h]⟩
  · intro h
    simp only [refundKnownCodes, List.mem_cons, List.not_mem_nil, or_false] at h
    push_neg at h
    obtain ⟨h1, h2, h3, h4, h5⟩ := h
    exact ⟨"Un-handled error code : " ++ toString r.code,
      by simp [refund_classify, h1, h2, h3, h4, h5]⟩

/-- Witness for C4: code `-90` returns `true`. -/
theorem refund_code_table_witness : refund_classify ⟨-90, "", []⟩ = Except.ok true :=
  (refund_code_table ⟨-90, "", []⟩).1 rfl

/-- A kwargs list holding a key outside `validKeys` makes the kwargs loop
raise `InvalidKey`. -/
theorem addKwargs_invalid (kwargs : List (String × String))
    (h : ∃ p ∈ kwargs, p.1 ∉ validKeys) :
    ∃ m, addKwargs kwargs = Except.error (NextPayError.InvalidKey m) := by
  induction kwargs with
  | nil =>
    obtain ⟨p, hp, _⟩ := h
    exact absurd hp (List.not_mem_nil p)
  | cons kv rest ih =>
    obtain ⟨k, v⟩ := kv
    by_cases hk : k ∈ validKeys
    · have hrest : ∃ p ∈ rest, p.1 ∉ validKeys := by
        obtain ⟨p, hp, hnp⟩ := h
        rcases List.mem_cons.mp hp with rfl | hmem
        · exact absurd hk hnp
        · exact ⟨p, hmem, hnp⟩
      obtain ⟨m, hm⟩ := ih hrest
      exact ⟨m, by simp [addKwargs, hk, hm]⟩
    · exact ⟨"key " ++ k ++ " is invalid for NextPay.org", by simp [addKwargs, hk]⟩

/-- C2: a `purchase` call whose kwargs hold a key outside `validKeys` raises
`InvalidKey` and issues zero HTTP requests, whatever the gateway would have
replied. -/
theorem purchase_invalid_key_no_request (np : NextPay) (order_id : String)
    (kwargs : List (String × String)) (r : GatewayResponse)
    (h : ∃ p ∈ kwargs, p.1 ∉ validKeys) :
    (purchase np order_id kwargs r).2.1 = [] ∧
    ∃ m, (purchase np order_id kwargs r).2.2 =
      Except.error (NextPayError.InvalidKey m) := by
  obtain ⟨m, hm⟩ := addKwargs_invalid kwargs h
  have hb : purchase_buildData np order_id kwargs =
      Except.error (NextPayError.InvalidKey m) := by
    simp [purchase_buildData, hm]
  exact ⟨by simp [purchase, hb], m, by simp [purchase, hb]⟩

/-- Witness for C2: kwargs key `bad_key` raises locally with an empty trace. -/
theorem purchase_invalid_key_no_request_witness :
    (purchase ⟨"tok", "1000", "cb"⟩ "order1" [("bad_key", "v")] ⟨-1, "t", []⟩).2.1 = [] ∧
    ∃ m, (purchase ⟨"tok", "1000", "cb"⟩ "order1" [("bad_key", "v")] ⟨-1, "t", []⟩).2.2 =
      Except.error (NextPayError.InvalidKey m) :=
  purchase_invalid_key_no_request ⟨"tok", "1000", "cb"⟩ "order1" [("bad_key", "v")]
    ⟨-1, "t", []⟩ ⟨("bad_key", "v"), List.mem_singleton.mpr rfl, by decide⟩

/-- C5: a code outside an operation's enumerated table yields the unhandled
error whose message holds the raw code; and a success value arises only at
the one success code per operation: `-1` for purchase, `0` for verify, `-90`
for refund. -/
theorem unknown_code_unhandled (np : NextPay) (r : GatewayResponse) :
    (r.code ∉ purchaseKnownCodes →
      ∃ a b, purchase_classify np r =
        Except.error (NextPayError.UnknownHandled (a ++ toString r.code ++ b))) ∧
    (r.code ∉ verifyKnownCodes →
      ∃ a b, verify_classify r =
        Except.error (NextPayError.UnknownHandled (a ++ toString r.code ++ b))) ∧
    (r.code ∉ refundKnownCodes →
      ∃ a b, refund_classify r =
        Except.error (NextPayError.UnknownHandled (a ++ toString r.code ++ b))) ∧
    (∀ t, purchase_classify np r = Except.ok t → r.code = -1) ∧
    (∀ v, verify_classify r = Except.ok v → r.code = 0) ∧
    (∀ v, refund_classify r = Except.ok v → r.code = -90) := by
  refine ⟨?_, ?_, ?_, ?_, ?_, ?_⟩
  · intro h
    simp only [purchaseKnownCodes, List.mem_cons, List.not_mem_nil, or_false] at h
    push_neg at h
    obtain ⟨h1, h2, h3, h4, h5, h6, h7, h8, h9⟩ := h
    refine ⟨"Un-handled error code : ", "", ?_⟩
    rw [String.append_empty]
    simp [purchase_classify, tokenErrorCodes, h1, h2, h3, h4, h5, h6, h7, h8, h9]
  · intro h
    simp only [verifyKnownCodes, List.mem_cons, List.not_mem_nil, or_false] at h
    push_neg at h
    obtain ⟨h1, h2, h3, h4, h5, h6⟩ := h
    refine ⟨"Un-handled error code : ", "", ?_⟩
    rw [String.append_empty]
    simp [verify_classify, h1, h2, h3, h4, h5, h6]
  · intro h
    simp only [refundKnownCodes, List.mem_cons, List.not_mem_nil, or_false] at h
    push_neg at h
    obtain ⟨h1, h2, h3, h4, h5⟩ := h
    refine ⟨"Un-handled error code : ", "", ?_⟩
    rw [String.append_empty]
    simp [refund_classify, h1, h2, h3, h4, h5]
  · intro t ht
    by_contra hc
    by_cases e1 : r.code = -32 <;> by_cases e2 : r.code = -73 <;>
      by_cases e3 : r.code ∈ tokenErrorCodes <;>
      simp [purchase_classify, hc, e1, e2, e3] at ht
  · intro v hv
    by_contra hc
    by_cases e1 : r.code = -2 <;> by_cases e2 : r.code = -4 <;>
      by_cases e3 : r.code = -24 <;> by_cases e4 : r.code = -25 <;>
      by_cases e5 : r.code = -27 <;>
      simp [verify_classify, hc, e1, e2, e3, e4, e5] at hv
  · intro v hv
    by_contra hc
    by_cases e1 : r.code ∈ ([-91, -92] : List Int) <;> by_cases e2 : r.code = -93 <;>
      by_cases e3 : r.code = -27 <;>
      simp [refund_classify, hc, e1, e2, e3] at hv

/-- Witness for C5: code `12345` is unknown to `purchase` and yields the
unhandled error carrying `12345`. -/
theorem unknown_code_unhandled_witness :
    ∃ a b, purchase_classify ⟨"tok", "1000", "cb"⟩ ⟨12345, "", []⟩ =
      Except.error (NextPayError.UnknownHandled
        (a ++ toString (GatewayResponse.mk 12345 "" []).code ++ b)) :=
  (unknown_code_unhandled ⟨"tok", "1000", "cb"⟩ ⟨12345, "", []⟩).1 (by decide)

/-- C6: `verify` includes a `currency` form field exactly when the supplied
value is `IRT` or `IRR`; any other value (absent included) builds the very
body no-currency builds, no local failure arises, and exactly one POST goes
out either way. -/
theorem verify_currency_filtering (np : NextPay) (t : String) (c : Option String)
    (r : GatewayResponse) :
    (c ∉ ([some "IRT", some "IRR"] : List (Option String)) →
      verify_buildData np t c = verify_buildData np t none ∧
      "currency" ∉ (verify_buildData np t c).map Prod.fst) ∧
    (c ∈ ([some "IRT", some "IRR"] : List (Option String)) →
      "currency" ∈ (verify_buildData np t c).map Prod.fst) ∧
    (verify np t c r).2.1.length = 1 ∧
    (verify np t c r).2.2 = verify_classify r := by
  refine ⟨?_, ?_, rfl, rfl⟩
  · intro h
    match c with
    | none => exact ⟨rfl, by simp [verify_buildData]⟩
    | some cv =>
      have hcv : cv ∉ (["IRT", "IRR"] : List String) := by
        simp only [List.mem_cons, List.not_mem_nil, or_false, Option.some.injEq] at h ⊢
        exact h
      exact ⟨by simp [verify_buildData, hcv], by simp [verify_buildData, hcv]⟩
  · intro h
    rcases List.mem_cons.mp h with rfl | h2
    · simp [verify_buildData]
    · rcases List.mem_cons.mp h2 with rfl | h3
      · simp [verify_buildData]
      · exact absurd h3 (List.not_mem_nil _)

/-- Witness for C6: currency `USD` builds the body without any currency. -/
theorem verify_currency_filtering_witness :
    verify_buildData ⟨"tok", "1000", "cb"⟩ "tid" (some "USD") =
      verify_buildData ⟨"tok", "1000", "cb"⟩ "tid" none :=
  ((verify_currency_filtering ⟨"tok", "1000", "cb"⟩ "tid" (some "USD")
    ⟨0, "", []⟩).1 (by decide)).1

/-- C7: the refund body is the no-currency verify body plus the single
trailing field `refund_request=yes_money_back`, and both calls POST to the
same `verifyUrl`. -/
theorem refund_body_extends_verify (np : NextPay) (t : String) (r : GatewayResponse) :
    refund_buildData np t =
      verify_buildData np t none ++ [("refund_request", "yes_money_back")] ∧
    (refund np t r).2.1 = [⟨verifyUrl, requestHeaders, refund_buildData np t⟩] ∧
    (verify np t none r).2.1 =
      [⟨verifyUrl, requestHeaders, verify_buildData np t none⟩] :=
  ⟨rfl, rfl, rfl⟩

/-- C8: construction stores the three arguments unchanged with no failure
mode, and no operation changes the client state: the post-state of every
call, succeeding or failing, is the constructed client. -/
theorem client_state_immutable :
    (∀ t a c, (NextPay.mk t a c).token = t ∧ (NextPay.mk t a c).amount = a ∧
      (NextPay.mk t a c).callback_uri = c) ∧
    (∀ np oid kwargs r, (purchase np oid kwargs r).1 = np) ∧
    (∀ np tid cur r, (verify np tid cur r).1 = np) ∧
    (∀ np tid r, (refund np tid r).1 = np) := by
  refine ⟨fun t a c => ⟨rfl, rfl, rfl⟩, ?_, fun np tid cur r => rfl, fun np tid r => rfl⟩
  intro np oid kwargs r
  rcases hb : purchase_buildData np oid kwargs with e | d <;> simp [purchase, hb]

/-- C9: no operation checks its string input for emptiness: any `order_id`
or `trans_id` — the empty string included — is placed in the body unchanged,
exactly one POST goes out, and the result is the classification of the
gateway reply, never a local validation error. -/
theorem no_emptiness_check (np : NextPay) (s : String) (r : GatewayResponse) :
    (purchase np s [] r).2.1 =
      [⟨purchaseUrl, requestHeaders,
        [("api_key", np.token), ("amount", np.amount), ("order_id", s),
         ("callback_uri", np.callback_uri)]⟩] ∧
    (purchase np s [] r).2.2 = purchase_classify np r ∧
    (verify np s none r).2.1 =
      [⟨verifyUrl, requestHeaders,
        [("api_key", np.token), ("amount", np.amount), ("trans_id", s)]⟩] ∧
    (verify np s none r).2.2 = verify_classify r ∧
    (refund np s r).2.1 =
      [⟨verifyUrl, requestHeaders,
        [("api_key", np.token), ("amount", np.amount), ("trans_id", s),
         ("refund_request", "yes_money_back")]⟩] ∧
    (refund np s r).2.2 = refund_classify r :=
  ⟨rfl, rfl, rfl, rfl, rfl, rfl⟩

/-- C10: each operation's outcome depends only on the reply's `code` — plus
`trans_id` for a successful purchase: two replies agreeing there classify
identically whatever their other fields hold. -/
theorem classification_depends_only_on_code (np : NextPay) (r1 r2 : GatewayResponse)
    (hcode : r1.code = r2.code) :
    ((r1.code = -1 → r1.trans_id = r2.trans_id) →
      purchase_classify np r1 = purchase_classify np r2) ∧
    verify_classify r1 = verify_classify r2 ∧
    refund_classify r1 = refund_classify r2 := by
  refine ⟨?_, ?_, ?_⟩
  · intro htid
    by_cases h1 : r1.code = -1
    · have h2 : r2.code = -1 := hcode ▸ h1
      simp [purchase_classify, h1, h2, htid h1]
    · have h2 : ¬r2.code = -1 := fun e => h1 (hcode.trans e)
      simp only [purchase_classify, hcode, if_neg h2]
  · have hv : ∀ s : GatewayResponse, verify_classify s = verify_classify ⟨s.code, "", []⟩ :=
      fun s => rfl
    rw [hv r1, hv r2, hcode]
  · have hr : ∀ s : GatewayResponse, refund_classify s = refund_classify ⟨s.code, "", []⟩ :=
      fun s => rfl
    rw [hr r1, hr r2, hcode]

/-- Witness for C10: two replies with code `0` differing in their extra
fields verify identically. -/
theorem classification_depends_only_on_code_witness :
    verify_classify ⟨0, "x", [("k", "v")]⟩ = verify_classify ⟨0, "x", []⟩ :=
  (classification_depends_only_on_code ⟨"tok", "1000", "cb"⟩ ⟨0, "x", [("k", "v")]⟩
    ⟨0, "x", []⟩ rfl).2.1
